import Mathlib

/-!
Verification of the training/validation control loop of the MMG MIDI
humanisation trainer (src/Model/Trainer.py), as a shallow embedding.

Tensors are modelled as nested lists of rationals (floating point is
modelled by exact rational arithmetic, except where the BCE loss with its
logarithm is needed, where real numbers are used).  The external
collaborators (generator network, discriminator network, autograd engine,
optimiser mechanics, metrics sink) are abstract parameters; the control
flow of each method is translated line by line from the source and, where
the order of effects matters, recorded into an explicit event trace.
-/

namespace MMG

/-- Tensor of shape [batch, time, features], elementwise rational. -/
abbrev Tensor3 : Type := List (List (List ℚ))

/-- Modelled from the spec: the CoderMask structure (Model.Component.Coder)
is not under src.  The spec describes it as a paired structure of a padding
mask over target time steps and a square attention mask over target time
steps. -/
structure CoderMask where
  TargetPadding : List (List Bool)
  TargetAttention : List (List Bool)
deriving DecidableEq

/-- Python slice l[:-s]: for s greater than zero this keeps all but the
last s elements, and for s = 0 the Python slice l[:-0] = l[:0] is empty. -/
def pyDropLast (s : ℕ) (l : List α) : List α :=
  if s = 0 then [] else l.take (l.length - s)

/-- Trainer.FAKE_LABEL. -/
def FAKE_LABEL : ℚ := 0.0

/-- Trainer.REAL_LABEL. -/
def REAL_LABEL : ℚ := 1.0

/-- Modelled from the spec: DataUtility.calcTimeStepLength is not under
src.  The spec describes the shift amount used by shiftTarget as the
window length W, a fixed configured constant representing one time-window
worth of steps; the window length is the first argument. -/
def calcTimeStepLength (windowLength n : ℕ) : ℕ := windowLength * n

/-- Modelled from the spec: DataUtility.calcSequenceLength is not under
src.  The spec describes the mask shrink amount as the same window length
W by which the target time dimension shrinks. -/
def calcSequenceLength (windowLength n : ℕ) : ℕ := windowLength * n

/-- Trainer.normaliseNote on one scalar: note.float() / N * 2.0 - 1.0,
where N is the configured note feature cardinality
(EmbeddingSetting.NOTE_ORIGINAL_FEATURE_SIZE, passed as a parameter). -/
def normaliseNote (N v : ℚ) : ℚ := v / N * 2 - 1

/-- Trainer.normaliseNote applied elementwise to a tensor. -/
def normaliseNoteT (N : ℚ) (t : Tensor3) : Tensor3 :=
  t.map (fun b => b.map (fun r => r.map (normaliseNote N)))

/-- Trainer.shiftTarget.  The in-place mask mutation of the source is
modelled by returning the new mask next to the returned tensor pair:
target[:, :-windowSkip, :] and target[:, windowSkip:, :], with the padding
mask losing its trailing sequenceSkip columns and the attention mask its
trailing sequenceSkip rows and columns.  W is the configured window
length. -/
def shiftTarget (W : ℕ) (target : Tensor3) (mask : CoderMask) :
    (Tensor3 × Tensor3) × CoderMask :=
  let windowSkip : ℕ := calcTimeStepLength W 1
  let sequenceSkip : ℕ := calcSequenceLength W 1
  ((target.map (pyDropLast windowSkip), target.map (List.drop windowSkip)),
   { TargetPadding := mask.TargetPadding.map (pyDropLast sequenceSkip),
     TargetAttention :=
       (pyDropLast sequenceSkip mask.TargetAttention).map (pyDropLast sequenceSkip) })

/-- The slice this.Label[:batchSize] of the label buffer (Python slicing
clamps: at most the whole buffer is returned). -/
def materialiseLabel (buffer : List ℚ) (b : ℕ) : List ℚ := buffer.take b

/-- The in-place fill label.fill_(c) through the view this.Label[:b]:
the first min b (length) entries of the underlying buffer become c, the
rest are untouched. -/
def fillLabel (buffer : List ℚ) (b : ℕ) (c : ℚ) : List ℚ :=
  List.replicate (min b buffer.length) c ++ buffer.drop b

/-- Mean of a score tensor of shape [B] (score.mean().item()). -/
def listMean (l : List ℚ) : ℚ := l.sum / l.length

/-- A batch yielded by the data loader: (source robotic MIDI = fake,
target performance MIDI = real, mask). -/
abbrev Batch : Type := Tensor3 × Tensor3 × CoderMask

/-- The mutable state of a Trainer.  GP and DP are the opaque parameter
blobs of the generator and discriminator networks (parameters together
with their accumulated gradients), OG and OD the internal states of the
two Adam optimisers, CS the state of the BCELoss criterion; all of these
belong to external collaborators and are abstract. -/
structure TrainerState (GP DP OG OD CS : Type) where
  LogName : String
  Generator : GP
  Discriminator : DP
  GeneratorOptimiser : OG
  DiscriminatorOptimiser : OD
  Epoch : ℕ
  GlobalStep : ℕ
  Criterion : CS
  Label : List ℚ

/-- The dictionary serialised by Trainer.checkpoint via torch.save. -/
structure CheckpointData (GP DP OG OD CS : Type) where
  log_name : String
  generator : GP
  discriminator : DP
  generator_optimiser : OG
  discriminator_optimiser : OD
  epoch : ℕ
  global_step : ℕ
  criterion : CS

/-- Trainer.__init__: fresh networks and optimisers (their random initial
blobs are the parameters initG, initD, initOG, initOD, initCS), zeroed
counters, and a label buffer of torch.zeros(BATCH_SIZE) where cap is the
configured TrainingSetting.BATCH_SIZE. -/
def initTrainer {GP DP OG OD CS : Type} (cap : ℕ)
    (initG : GP) (initD : DP) (initOG : OG) (initOD : OD) (initCS : CS)
    (log_name : String) : TrainerState GP DP OG OD CS :=
  { LogName := log_name
    Generator := initG
    Discriminator := initD
    GeneratorOptimiser := initOG
    DiscriminatorOptimiser := initOD
    Epoch := 0
    GlobalStep := 0
    Criterion := initCS
    Label := List.replicate cap 0 }

/-- Trainer.checkpoint: the serialised snapshot (file naming, timestamping
and directory creation are I/O and not part of the stored data). -/
def checkpoint {GP DP OG OD CS : Type} (st : TrainerState GP DP OG OD CS) :
    CheckpointData GP DP OG OD CS :=
  { log_name := st.LogName
    generator := st.Generator
    discriminator := st.Discriminator
    generator_optimiser := st.GeneratorOptimiser
    discriminator_optimiser := st.DiscriminatorOptimiser
    epoch := st.Epoch
    global_step := st.GlobalStep
    criterion := st.Criterion }

/-- Trainer.loadFrom: construct a fresh trainer from the stored log name,
then overwrite network parameters, optimiser states, counters and
criterion state from the archive. -/
def loadFrom {GP DP OG OD CS : Type} (cap : ℕ)
    (initG : GP) (initD : DP) (initOG : OG) (initOD : OD) (initCS : CS)
    (model : CheckpointData GP DP OG OD CS) : TrainerState GP DP OG OD CS :=
  let trainer := initTrainer cap initG initD initOG initOD initCS model.log_name
  { trainer with
    Generator := model.generator
    Discriminator := model.discriminator
    GeneratorOptimiser := model.generator_optimiser
    DiscriminatorOptimiser := model.discriminator_optimiser
    Epoch := model.epoch
    GlobalStep := model.global_step
    Criterion := model.criterion }

/-- Trainer.advanceEpoch. -/
def advanceEpoch {GP DP OG OD CS : Type} (st : TrainerState GP DP OG OD CS) :
    TrainerState GP DP OG OD CS :=
  { st with Epoch := st.Epoch + 1 }

/-- External collaborators consumed by the loop: the two network forward
functions, the BCELoss criterion evaluation, and the autograd/optimiser
operations on the opaque network blobs. -/
structure Ext (GP DP OG OD : Type) where
  genForward : GP → Tensor3 → Tensor3 → CoderMask → Tensor3
  discForward : DP → Tensor3 → List ℚ
  crit : List ℚ → List ℚ → ℚ
  discZeroGrad : DP → DP
  discBackward : DP → ℚ → DP
  discStep : DP → OD → DP × OD
  genZeroGrad : GP → GP
  genBackward : GP → ℚ → GP
  genStep : GP → OG → GP × OG

/-- Observable events of one loop iteration, in program order.  Forward
events carry their input tensors so that the forward computations of
train and validate can be compared; the discForward flag records whether
the input was detached from the generator graph. -/
inductive GanEvent where
  | discZeroGradE : GanEvent
  | genZeroGradE : GanEvent
  | labelFillE : ℚ → GanEvent
  | discForwardE : Bool → Tensor3 → GanEvent
  | genForwardE : Tensor3 → Tensor3 → CoderMask → GanEvent
  | backwardIntoDiscE : ℚ → GanEvent
  | backwardIntoGenE : ℚ → GanEvent
  | discOptimStepE : GanEvent
  | genOptimStepE : GanEvent
  | logScalarsE : String → List (String × ℚ) → ℕ → GanEvent
  | stepIncrementE : GanEvent
deriving DecidableEq

/-- The shape of an event with its payload forgotten. -/
inductive EventKind where
  | kDiscZeroGrad | kGenZeroGrad | kLabelFill | kDiscForward | kGenForward
  | kBackwardIntoDisc | kBackwardIntoGen | kDiscOptimStep | kGenOptimStep
  | kLogScalars | kStepIncrement
deriving DecidableEq

/-- Forget the payload of an event. -/
def eventKind : GanEvent → EventKind
  | .discZeroGradE => .kDiscZeroGrad
  | .genZeroGradE => .kGenZeroGrad
  | .labelFillE _ => .kLabelFill
  | .discForwardE _ _ => .kDiscForward
  | .genForwardE _ _ _ => .kGenForward
  | .backwardIntoDiscE _ => .kBackwardIntoDisc
  | .backwardIntoGenE _ => .kBackwardIntoGen
  | .discOptimStepE => .kDiscOptimStep
  | .genOptimStepE => .kGenOptimStep
  | .logScalarsE _ _ _ => .kLogScalars
  | .stepIncrementE => .kStepIncrement

/-- The constant filled into the label buffer by a labelFillE event. -/
def labelFillValue : GanEvent → Option ℚ
  | .labelFillE c => some c
  | _ => none

/-- Input tensor of a discriminator forward event. -/
def discForwardInput : GanEvent → Option Tensor3
  | .discForwardE _ t => some t
  | _ => none

/-- Detach flag of a discriminator forward event. -/
def discForwardDetached : GanEvent → Option Bool
  | .discForwardE d _ => some d
  | _ => none

/-- Arguments of a generator forward event. -/
def genForwardArgs : GanEvent → Option (Tensor3 × Tensor3 × CoderMask)
  | .genForwardE s t m => some (s, t, m)
  | _ => none

/-- Step key of a metrics emission event. -/
def logStepOf : GanEvent → Option ℕ
  | .logScalarsE _ _ s => some s
  | _ => none

/-- Scalar key-value payload of a metrics emission event. -/
def logValuesOf : GanEvent → Option (List (String × ℚ))
  | .logScalarsE _ kv _ => some kv
  | _ => none

/-- One iteration of the loop body of Trainer.train, translated line by
line from the source.  W is the configured window length, N the note
feature cardinality, lf the configured LOG_FREQUENCY and i the zero-based
batch index within the epoch.  Returns the updated trainer state and the
trace of the effects in program order. -/
def trainBatch {GP DP OG OD CS : Type} (E : Ext GP DP OG OD)
    (W : ℕ) (N : ℚ) (lf : ℕ) (i : ℕ)
    (st : TrainerState GP DP OG OD CS) (data : Batch) :
    TrainerState GP DP OG OD CS × List GanEvent :=
  let fake := data.1
  let real := data.2.1
  let mask := data.2.2
  let shifted := shiftTarget W real mask
  let realInput := shifted.1.1
  let realExpected := shifted.1.2
  let mask2 := shifted.2
  let batchSize := fake.length
  -- train discriminator
  let d0 := E.discZeroGrad st.Discriminator
  let buf1 := fillLabel st.Label batchSize REAL_LABEL
  let scoreReal := E.discForward d0 (normaliseNoteT N realExpected)
  let errReal := E.crit scoreReal (materialiseLabel buf1 batchSize)
  let d1 := E.discBackward d0 errReal
  let dx := listMean scoreReal
  let buf2 := fillLabel buf1 batchSize FAKE_LABEL
  let generated := E.genForward st.Generator fake realInput mask2
  let scoreFake := E.discForward d1 generated
  let errFake := E.crit scoreFake (materialiseLabel buf2 batchSize)
  let d2 := E.discBackward d1 errFake
  let dgz1 := listMean scoreFake
  let errDiscriminator := errReal + errFake
  let dStepped := E.discStep d2 st.DiscriminatorOptimiser
  -- train generator
  let g0 := E.genZeroGrad st.Generator
  let buf3 := fillLabel buf2 batchSize REAL_LABEL
  let scoreGen := E.discForward dStepped.1 generated
  let errGenerator := E.crit scoreGen (materialiseLabel buf3 batchSize)
  let g1 := E.genBackward g0 errGenerator
  let dgz2 := listMean scoreGen
  let gStepped := E.genStep g1 st.GeneratorOptimiser
  -- logging
  let logEvents : List GanEvent :=
    if i % lf = 0 then
      [.logScalarsE "train"
        [("Loss(D)", errDiscriminator), ("Loss(G)", errGenerator),
         ("D(x)", dx), ("D(G(z1))", dgz1), ("D(G(z2))", dgz2)]
        st.GlobalStep]
    else []
  ({ st with
      Generator := gStepped.1
      Discriminator := dStepped.1
      GeneratorOptimiser := gStepped.2
      DiscriminatorOptimiser := dStepped.2
      GlobalStep := st.GlobalStep + 1
      Label := buf3 },
   [.discZeroGradE, .labelFillE REAL_LABEL,
    .discForwardE false (normaliseNoteT N realExpected),
    .backwardIntoDiscE errReal,
    .labelFillE FAKE_LABEL,
    .genForwardE fake realInput mask2,
    .discForwardE true generated,
    .backwardIntoDiscE errFake,
    .discOptimStepE,
    .genZeroGradE,
    .labelFillE REAL_LABEL,
    .discForwardE false generated,
    .backwardIntoGenE errGenerator,
    .genOptimStepE] ++ logEvents ++ [.stepIncrementE])

/-- One iteration of the loop body of Trainer.validate, translated line
by line from the source: the same forward passes under torch.no_grad,
with no gradient clearing, no backward and no optimiser step, and the
global step left untouched. -/
def validateBatch {GP DP OG OD CS : Type} (E : Ext GP DP OG OD)
    (W : ℕ) (N : ℚ) (lf : ℕ) (i : ℕ)
    (st : TrainerState GP DP OG OD CS) (data : Batch) :
    TrainerState GP DP OG OD CS × List GanEvent :=
  let fake := data.1
  let real := data.2.1
  let mask := data.2.2
  let shifted := shiftTarget W real mask
  let realInput := shifted.1.1
  let realExpected := shifted.1.2
  let mask2 := shifted.2
  let batchSize := fake.length
  -- validate discriminator
  let buf1 := fillLabel st.Label batchSize REAL_LABEL
  let scoreReal := E.discForward st.Discriminator (normaliseNoteT N realExpected)
  let errDiscriminator := E.crit scoreReal (materialiseLabel buf1 batchSize)
  let dx := listMean scoreReal
  -- validate generator
  let buf2 := fillLabel buf1 batchSize FAKE_LABEL
  let generated := E.genForward st.Generator fake realInput mask2
  let scoreGen := E.discForward st.Discriminator generated
  let errGenerator := E.crit scoreGen (materialiseLabel buf2 batchSize)
  let dgz := listMean scoreGen
  -- logging
  let logEvents : List GanEvent :=
    if i % lf = 0 then
      [.logScalarsE "validation"
        [("Loss(D)", errDiscriminator), ("Loss(G)", errGenerator),
         ("D(x)", dx), ("D(G(z))", dgz)]
        st.GlobalStep]
    else []
  ({ st with Label := buf2 },
   [.labelFillE REAL_LABEL,
    .discForwardE false (normaliseNoteT N realExpected),
    .labelFillE FAKE_LABEL,
    .genForwardE fake realInput mask2,
    .discForwardE false generated] ++ logEvents)

/-- The enumerate loop of Trainer.train from batch index i onward. -/
def trainLoop {GP DP OG OD CS : Type} (E : Ext GP DP OG OD)
    (W : ℕ) (N : ℚ) (lf : ℕ) (i : ℕ)
    (st : TrainerState GP DP OG OD CS) : List Batch →
    TrainerState GP DP OG OD CS × List GanEvent
  | [] => (st, [])
  | data :: rest =>
    let stepped := trainBatch E W N lf i st data
    let finished := trainLoop E W N lf (i + 1) stepped.1 rest
    (finished.1, stepped.2 ++ finished.2)

/-- Trainer.train over one epoch of batches. -/
def train {GP DP OG OD CS : Type} (E : Ext GP DP OG OD)
    (W : ℕ) (N : ℚ) (lf : ℕ)
    (st : TrainerState GP DP OG OD CS) (dataLoader : List Batch) :
    TrainerState GP DP OG OD CS × List GanEvent :=
  trainLoop E W N lf 0 st dataLoader

/-- The enumerate loop of Trainer.validate from batch index i onward. -/
def validateLoop {GP DP OG OD CS : Type} (E : Ext GP DP OG OD)
    (W : ℕ) (N : ℚ) (lf : ℕ) (i : ℕ)
    (st : TrainerState GP DP OG OD CS) : List Batch →
    TrainerState GP DP OG OD CS × List GanEvent
  | [] => (st, [])
  | data :: rest =>
    let stepped := validateBatch E W N lf i st data
    let finished := validateLoop E W N lf (i + 1) stepped.1 rest
    (finished.1, stepped.2 ++ finished.2)

/-- Trainer.validate over one epoch of batches. -/
def validate {GP DP OG OD CS : Type} (E : Ext GP DP OG OD)
    (W : ℕ) (N : ℚ) (lf : ℕ)
    (st : TrainerState GP DP OG OD CS) (dataLoader : List Batch) :
    TrainerState GP DP OG OD CS × List GanEvent :=
  validateLoop E W N lf 0 st dataLoader

/-!
The concrete criterion.  this.Criterion is torch.nn.BCELoss() with its
default mean reduction: for scores x and targets y of length n it computes
(1/n) * sum over i of -(y i * log (x i) + (1 - y i) * log (1 - x i)).
Real numbers and the real logarithm model the floating point evaluation.
-/

/-- Binary cross entropy with mean reduction, the semantics of BCELoss. -/
noncomputable def bceLoss (x y : List ℝ) : ℝ :=
  (List.zipWith (fun xi yi => -(yi * Real.log xi + (1 - yi) * Real.log (1 - xi))) x y).sum
    / (x.length : ℝ)

/-- A label tensor of batch size b filled with REAL_LABEL = 1.0. -/
def realLabelList (b : ℕ) : List ℝ := List.replicate b 1

/-- A label tensor of batch size b filled with FAKE_LABEL = 0.0. -/
def fakeLabelList (b : ℕ) : List ℝ := List.replicate b 0

/-- The training discriminator loss err_discriminator = err_real +
err_fake of Trainer.train: criterion of the real score against REAL
labels plus criterion of the generated score against FAKE labels. -/
noncomputable def trainLossD (scoreReal scoreFake : List ℝ) (b : ℕ) : ℝ :=
  bceLoss scoreReal (realLabelList b) + bceLoss scoreFake (fakeLabelList b)

/-- The training generator loss err_generator of Trainer.train:
criterion of the generated score against REAL labels. -/
noncomputable def trainLossG (scoreGen : List ℝ) (b : ℕ) : ℝ :=
  bceLoss scoreGen (realLabelList b)

/-- The validation err_discriminator of Trainer.validate: criterion of
the real score against REAL labels (there is no fake term). -/
noncomputable def validateLossD (scoreReal : List ℝ) (b : ℕ) : ℝ :=
  bceLoss scoreReal (realLabelList b)

/-- The validation err_generator of Trainer.validate: criterion of the
generated score against the label buffer as last filled, which at that
point holds FAKE labels. -/
noncomputable def validateLossG (scoreGen : List ℝ) (b : ℕ) : ℝ :=
  bceLoss scoreGen (fakeLabelList b)

/-!
Claim theorems.
-/

/-- C9: normaliseNote maps every input value in [0, N] (N the configured
note-feature cardinality) to a value in [-1, 1] via the linear rescaling
value / N * 2 - 1, with boundary values 0 to -1, N to 1 and N / 2 to 0;
it is a pure function of its arguments. -/
theorem normaliseNote_range_boundaries (N v : ℚ)
    (hN : 0 < N) (h0 : 0 ≤ v) (h1 : v ≤ N) :
    normaliseNote N v = v / N * 2 - 1 ∧
    -1 ≤ normaliseNote N v ∧ normaliseNote N v ≤ 1 ∧
    normaliseNote N 0 = -1 ∧ normaliseNote N N = 1 ∧
    normaliseNote N (N / 2) = 0 := by
  have hv : 0 ≤ v / N := div_nonneg h0 (le_of_lt hN)
  have hv1 : v / N ≤ 1 := (div_le_one hN).mpr h1
  have hNe : N ≠ 0 := ne_of_gt hN
  refine ⟨rfl, ?_, ?_, ?_, ?_, ?_⟩
  · unfold normaliseNote; linarith
  · unfold normaliseNote; linarith
  · unfold normaliseNote; simp
  · unfold normaliseNote; rw [div_self hNe]; norm_num
  · unfold normaliseNote; field_simp; ring

/-- Witness for C9 at N = 128, v = 32. -/
theorem normaliseNote_range_boundaries_witness :
    ((0:ℚ) < 128 ∧ (0:ℚ) ≤ 32 ∧ (32:ℚ) ≤ 128) ∧
    (normaliseNote 128 32 = 32 / 128 * 2 - 1 ∧
     -1 ≤ normaliseNote 128 32 ∧ normaliseNote 128 32 ≤ 1 ∧
     normaliseNote 128 0 = -1 ∧ normaliseNote 128 128 = 1 ∧
     normaliseNote 128 (128 / 2) = 0) :=
  ⟨⟨by decide, by decide, by decide⟩,
   normaliseNote_range_boundaries 128 32 (by decide) (by decide) (by decide)⟩

/-- C6: saving a checkpoint and loading it reproduces a session with the
same log identifier, identical generator and discriminator parameters,
identical optimiser internal states, identical criterion state and
identical epoch and global step counters.  (The scratch label buffer is
reallocated to its initial zeros, as in a fresh construction; it is
rewritten before every use.) -/
theorem checkpoint_roundtrip {GP DP OG OD CS : Type} (cap : ℕ)
    (initG : GP) (initD : DP) (initOG : OG) (initOD : OD) (initCS : CS)
    (st : TrainerState GP DP OG OD CS) :
    (loadFrom cap initG initD initOG initOD initCS (checkpoint st)).LogName = st.LogName ∧
    (loadFrom cap initG initD initOG initOD initCS (checkpoint st)).Generator = st.Generator ∧
    (loadFrom cap initG initD initOG initOD initCS (checkpoint st)).Discriminator = st.Discriminator ∧
    (loadFrom cap initG initD initOG initOD initCS (checkpoint st)).GeneratorOptimiser = st.GeneratorOptimiser ∧
    (loadFrom cap initG initD initOG initOD initCS (checkpoint st)).DiscriminatorOptimiser = st.DiscriminatorOptimiser ∧
    (loadFrom cap initG initD initOG initOD initCS (checkpoint st)).Epoch = st.Epoch ∧
    (loadFrom cap initG initD initOG initOD initCS (checkpoint st)).GlobalStep = st.GlobalStep ∧
    (loadFrom cap initG initD initOG initOD initCS (checkpoint st)).Criterion = st.Criterion :=
  ⟨rfl, rfl, rfl, rfl, rfl, rfl, rfl, rfl⟩

/-- C7 counterexample: with a buffer of capacity 4, materialising the
label slice for batch size 6 silently yields the whole 4-entry buffer:
no error occurs and the result has fewer than 6 entries, contradicting
the claim that such a request must not silently succeed with fewer than
b entries. -/
theorem materialiseLabel_oversize_counterexample :
    materialiseLabel (List.replicate 4 (0:ℚ)) 6 = List.replicate 4 (0:ℚ) ∧
    (materialiseLabel (List.replicate 4 (0:ℚ)) 6).length = 4 ∧
    (materialiseLabel (List.replicate 4 (0:ℚ)) 6).length ≠ 6 := by
  refine ⟨?_, ?_, ?_⟩ <;> decide

/-- C7 amended: requesting a batch size b larger than the configured
capacity is not guarded: the slice silently clamps to the capacity, so
the materialised label has min b capacity entries; the buffer itself
never grows, under materialisation or filling. -/
theorem materialiseLabel_never_grows (buf : List ℚ) (b : ℕ) (c : ℚ) :
    (materialiseLabel buf b).length = min b buf.length ∧
    (fillLabel buf b c).length = buf.length := by
  constructor
  · simp [materialiseLabel]
  · simp only [fillLabel, List.length_append, List.length_replicate, List.length_drop]
    omega

/-- C8: for b at most the capacity, materialising the label slice for
batch size b and filling it with REAL_LABEL makes the first b entries of
the session buffer equal to REAL_LABEL = 1.0 and leaves every entry at
index b or beyond unchanged; the buffer length is preserved (it is
allocated once, at construction, with the configured capacity). -/
theorem labelBuffer_fill_frame (buf : List ℚ) (b : ℕ) (hb : b ≤ buf.length) :
    (fillLabel buf b REAL_LABEL).length = buf.length ∧
    materialiseLabel (fillLabel buf b REAL_LABEL) b = List.replicate b REAL_LABEL ∧
    (∀ i, i < b → (fillLabel buf b REAL_LABEL)[i]? = some REAL_LABEL) ∧
    (∀ i, b ≤ i → (fillLabel buf b REAL_LABEL)[i]? = buf[i]?) ∧
    (∀ (cap : ℕ) (nm : String),
      (initTrainer cap () () () () () nm).Label = List.replicate cap (0:ℚ)) := by
  have hmin : min b buf.length = b := Nat.min_eq_left hb
  refine ⟨?_, ?_, ?_, ?_, fun cap nm => rfl⟩
  · simp only [fillLabel, List.length_append, List.length_replicate, List.length_drop]
    omega
  · unfold materialiseLabel fillLabel
    rw [hmin, List.take_left' (List.length_replicate b REAL_LABEL)]
  · intro i hi
    unfold fillLabel
    rw [List.getElem?_append_left (by simpa [hmin] using hi),
      List.getElem?_replicate_of_lt (by omega)]
  · intro i hi
    unfold fillLabel
    rw [List.getElem?_append_right (by simp [hmin]; omega)]
    rw [List.getElem?_drop]
    congr 1
    simp [hmin]
    omega

/-- Witness for C8 with capacity 4 and batch size 2. -/
theorem labelBuffer_fill_frame_witness :
    (2 ≤ (List.replicate 4 (0:ℚ)).length) ∧
    ((fillLabel (List.replicate 4 (0:ℚ)) 2 REAL_LABEL).length = (List.replicate 4 (0:ℚ)).length ∧
     materialiseLabel (fillLabel (List.replicate 4 (0:ℚ)) 2 REAL_LABEL) 2 = List.replicate 2 REAL_LABEL ∧
     (∀ i, i < 2 → (fillLabel (List.replicate 4 (0:ℚ)) 2 REAL_LABEL)[i]? = some REAL_LABEL) ∧
     (∀ i, 2 ≤ i → (fillLabel (List.replicate 4 (0:ℚ)) 2 REAL_LABEL)[i]? = (List.replicate 4 (0:ℚ))[i]?) ∧
     (∀ (cap : ℕ) (nm : String),
       (initTrainer cap () () () () () nm).Label = List.replicate cap (0:ℚ))) :=
  ⟨by decide, labelBuffer_fill_frame (List.replicate 4 (0:ℚ)) 2 (by decide)⟩

/-- Python slicing l[:-s] for a positive s is List.take of length - s. -/
theorem pyDropLast_eq_take {α : Type} (s : ℕ) (hs : s ≠ 0) (l : List α) :
    pyDropLast s l = l.take (l.length - s) := by
  simp [pyDropLast, hs]

/-- C4: for a target of shape [B, T, F] with window length W < T,
shiftTarget returns the pair (target[:, 0:T-W, :], target[:, W:T, :]):
both components have time length T - W, the input component agrees with
the original target on indices below T - W, and the expected component at
time t is the original target at time t + W.  The function does not
modify the target (it only reads it). -/
theorem shiftTarget_shifts (W T : ℕ) (target : Tensor3) (mask : CoderMask)
    (hW : 0 < W) (hT : W < T)
    (hrows : ∀ b ∈ target, b.length = T) :
    (shiftTarget W target mask).1.1 = target.map (fun b => b.take (T - W)) ∧
    (shiftTarget W target mask).1.2 = target.map (fun b => b.drop W) ∧
    (∀ b ∈ (shiftTarget W target mask).1.1, b.length = T - W) ∧
    (∀ b ∈ (shiftTarget W target mask).1.2, b.length = T - W) ∧
    (∀ bi t : ℕ, t < T - W →
      (shiftTarget W target mask).1.1[bi]?.bind (fun r : List (List ℚ) => r[t]?) =
        target[bi]?.bind (fun r : List (List ℚ) => r[t]?)) ∧
    (∀ bi t : ℕ, t < T - W →
      (shiftTarget W target mask).1.2[bi]?.bind (fun r : List (List ℚ) => r[t]?) =
        target[bi]?.bind (fun r : List (List ℚ) => r[t + W]?)) := by
  have hW0 : W ≠ 0 := Nat.pos_iff_ne_zero.mp hW
  have e1 : (shiftTarget W target mask).1.1 = target.map (fun b => b.take (T - W)) := by
    simp only [shiftTarget, calcTimeStepLength, Nat.mul_one]
    exact List.map_congr_left fun b hb => by rw [pyDropLast_eq_take W hW0, hrows b hb]
  have e2 : (shiftTarget W target mask).1.2 = target.map (fun b => b.drop W) := by
    simp only [shiftTarget, calcTimeStepLength, Nat.mul_one]
  refine ⟨e1, e2, ?_, ?_, ?_, ?_⟩
  · rw [e1]
    intro b hb
    obtain ⟨a, ha, rfl⟩ := List.mem_map.mp hb
    rw [List.length_take, hrows a ha]
    omega
  · rw [e2]
    intro b hb
    obtain ⟨a, ha, rfl⟩ := List.mem_map.mp hb
    rw [List.length_drop, hrows a ha]
  · intro bi t ht
    rw [e1, List.getElem?_map]
    cases h : target[bi]? with
    | none => rfl
    | some a => simp [List.getElem?_take_of_lt ht]
  · intro bi t ht
    rw [e2, List.getElem?_map]
    cases h : target[bi]? with
    | none => rfl
    | some a => simp [List.getElem?_drop, Nat.add_comm t W]

/-- Witness for C4 on a 1-by-3-by-1 target with window length 1. -/
theorem shiftTarget_shifts_witness :
    ((0:ℕ) < 1 ∧ 1 < 3 ∧
     (∀ b ∈ ([[[5], [6], [7]]] : Tensor3), b.length = 3)) ∧
    ((shiftTarget 1 [[[5], [6], [7]]] ⟨[], []⟩).1.1 =
        ([[[5], [6], [7]]] : Tensor3).map (fun b => b.take (3 - 1)) ∧
     (shiftTarget 1 [[[5], [6], [7]]] ⟨[], []⟩).1.2 =
        ([[[5], [6], [7]]] : Tensor3).map (fun b => b.drop 1) ∧
     (∀ b ∈ (shiftTarget 1 [[[5], [6], [7]]] ⟨[], []⟩).1.1, b.length = 3 - 1) ∧
     (∀ b ∈ (shiftTarget 1 [[[5], [6], [7]]] ⟨[], []⟩).1.2, b.length = 3 - 1) ∧
     (∀ bi t : ℕ, t < 3 - 1 →
       (shiftTarget 1 [[[5], [6], [7]]] ⟨[], []⟩).1.1[bi]?.bind (fun r : List (List ℚ) => r[t]?) =
         ([[[5], [6], [7]]] : Tensor3)[bi]?.bind (fun r : List (List ℚ) => r[t]?)) ∧
     (∀ bi t : ℕ, t < 3 - 1 →
       (shiftTarget 1 [[[5], [6], [7]]] ⟨[], []⟩).1.2[bi]?.bind (fun r : List (List ℚ) => r[t]?) =
         ([[[5], [6], [7]]] : Tensor3)[bi]?.bind (fun r : List (List ℚ) => r[t + 1]?))) :=
  ⟨⟨by decide, by decide, by decide⟩,
   shiftTarget_shifts 1 3 [[[5], [6], [7]]] ⟨[], []⟩ (by decide) (by decide) (by decide)⟩

/-- C3: when the mask time dimensions equal the target time length T and
W < T, shiftTarget shrinks both mask components by the window length W:
the mutated padding mask has T - W columns and the mutated attention mask
is square of side T - W, matching the shifted target whose time length is
also T - W. -/
theorem shiftTarget_mask_consistent (W T : ℕ) (target : Tensor3) (mask : CoderMask)
    (hW : 0 < W) (hT : W < T)
    (hpad : ∀ r ∈ mask.TargetPadding, r.length = T)
    (hattLen : mask.TargetAttention.length = T)
    (hattRow : ∀ r ∈ mask.TargetAttention, r.length = T)
    (hrows : ∀ b ∈ target, b.length = T) :
    (∀ r ∈ (shiftTarget W target mask).2.TargetPadding, r.length = T - W) ∧
    (shiftTarget W target mask).2.TargetAttention.length = T - W ∧
    (∀ r ∈ (shiftTarget W target mask).2.TargetAttention, r.length = T - W) ∧
    (∀ b ∈ (shiftTarget W target mask).1.1, b.length = T - W) ∧
    (∀ b ∈ (shiftTarget W target mask).1.2, b.length = T - W) := by
  have hW0 : W ≠ 0 := Nat.pos_iff_ne_zero.mp hW
  have epad : (shiftTarget W target mask).2.TargetPadding =
      mask.TargetPadding.map (pyDropLast W) := by
    simp only [shiftTarget, calcSequenceLength, Nat.mul_one]
  have eatt : (shiftTarget W target mask).2.TargetAttention =
      (pyDropLast W mask.TargetAttention).map (pyDropLast W) := by
    simp only [shiftTarget, calcSequenceLength, Nat.mul_one]
  refine ⟨?_, ?_, ?_, ?_, ?_⟩
  · rw [epad]
    intro r hr
    obtain ⟨a, ha, rfl⟩ := List.mem_map.mp hr
    rw [pyDropLast_eq_take W hW0, List.length_take, hpad a ha]
    omega
  · rw [eatt, List.length_map, pyDropLast_eq_take W hW0, List.length_take, hattLen]
    omega
  · rw [eatt]
    intro r hr
    obtain ⟨a, ha, rfl⟩ := List.mem_map.mp hr
    have ha2 : a ∈ mask.TargetAttention := by
      rw [pyDropLast_eq_take W hW0] at ha
      exact List.mem_of_mem_take ha
    rw [pyDropLast_eq_take W hW0, List.length_take, hattRow a ha2]
    omega
  · intro b hb
    simp only [shiftTarget, calcTimeStepLength, Nat.mul_one] at hb
    obtain ⟨a, ha, rfl⟩ := List.mem_map.mp hb
    rw [pyDropLast_eq_take W hW0, List.length_take, hrows a ha]
    omega
  · intro b hb
    simp only [shiftTarget, calcTimeStepLength, Nat.mul_one] at hb
    obtain ⟨a, ha, rfl⟩ := List.mem_map.mp hb
    rw [List.length_drop, hrows a ha]

/-- Witness for C3 on a 3-step mask with window length 1. -/
theorem shiftTarget_mask_consistent_witness :
    ((0:ℕ) < 1 ∧ 1 < 3 ∧
     (∀ r ∈ ([[true, true, true]] : List (List Bool)), r.length = 3) ∧
     ([[true, true, true], [true, true, true], [true, true, true]] : List (List Bool)).length = 3 ∧
     (∀ r ∈ ([[true, true, true], [true, true, true], [true, true, true]] : List (List Bool)),
       r.length = 3) ∧
     (∀ b ∈ ([[[5], [6], [7]]] : Tensor3), b.length = 3)) ∧
    ((∀ r ∈ (shiftTarget 1 [[[5], [6], [7]]]
        ⟨[[true, true, true]],
         [[true, true, true], [true, true, true], [true, true, true]]⟩).2.TargetPadding,
       r.length = 3 - 1) ∧
     (shiftTarget 1 [[[5], [6], [7]]]
        ⟨[[true, true, true]],
         [[true, true, true], [true, true, true], [true, true, true]]⟩).2.TargetAttention.length = 3 - 1 ∧
     (∀ r ∈ (shiftTarget 1 [[[5], [6], [7]]]
        ⟨[[true, true, true]],
         [[true, true, true], [true, true, true], [true, true, true]]⟩).2.TargetAttention,
       r.length = 3 - 1) ∧
     (∀ b ∈ (shiftTarget 1 [[[5], [6], [7]]]
        ⟨[[true, true, true]],
         [[true, true, true], [true, true, true], [true, true, true]]⟩).1.1, b.length = 3 - 1) ∧
     (∀ b ∈ (shiftTarget 1 [[[5], [6], [7]]]
        ⟨[[true, true, true]],
         [[true, true, true], [true, true, true], [true, true, true]]⟩).1.2, b.length = 3 - 1)) :=
  ⟨⟨by decide, by decide, by decide, by decide, by decide, by decide⟩,
   shiftTarget_mask_consistent 1 3 [[[5], [6], [7]]]
     ⟨[[true, true, true]],
      [[true, true, true], [true, true, true], [true, true, true]]⟩
     (by decide) (by decide) (by decide) (by decide) (by decide) (by decide)⟩

/-- One training batch advances the global step by exactly one. -/
theorem trainBatch_globalStep_aux {GP DP OG OD CS : Type} (E : Ext GP DP OG OD)
    (W : ℕ) (N : ℚ) (lf i : ℕ) (st : TrainerState GP DP OG OD CS) (data : Batch) :
    (trainBatch E W N lf i st data).1.GlobalStep = st.GlobalStep + 1 := rfl

/-- One validation batch leaves the global step untouched. -/
theorem validateBatch_globalStep_aux {GP DP OG OD CS : Type} (E : Ext GP DP OG OD)
    (W : ℕ) (N : ℚ) (lf i : ℕ) (st : TrainerState GP DP OG OD CS) (data : Batch) :
    (validateBatch E W N lf i st data).1.GlobalStep = st.GlobalStep := rfl

/-- A training loop advances the global step by the number of batches. -/
theorem trainLoop_globalStep_aux {GP DP OG OD CS : Type} (E : Ext GP DP OG OD)
    (W : ℕ) (N : ℚ) (lf : ℕ) :
    ∀ (bs : List Batch) (i : ℕ) (st : TrainerState GP DP OG OD CS),
      (trainLoop E W N lf i st bs).1.GlobalStep = st.GlobalStep + bs.length := by
  intro bs
  induction bs with
  | nil => intro i st; rfl
  | cons d rest ih =>
    intro i st
    simp only [trainLoop, ih, trainBatch_globalStep_aux, List.length_cons]
    omega

/-- A validation loop leaves the global step untouched. -/
theorem validateLoop_globalStep_aux {GP DP OG OD CS : Type} (E : Ext GP DP OG OD)
    (W : ℕ) (N : ℚ) (lf : ℕ) :
    ∀ (bs : List Batch) (i : ℕ) (st : TrainerState GP DP OG OD CS),
      (validateLoop E W N lf i st bs).1.GlobalStep = st.GlobalStep := by
  intro bs
  induction bs with
  | nil => intro i st; rfl
  | cons d rest ih =>
    intro i st
    simp only [validateLoop, ih, validateBatch_globalStep_aux]

/-- C5: the global step increments by exactly 1 per training batch,
unconditionally and independently of the logging gate, and by 0 per
validation batch; a training epoch adds its batch count, a validation
epoch adds nothing, and the counter is cumulative across epochs: an
epoch ending at step S is followed by the next epoch starting at S, and
the counter is never reset or decremented. -/
theorem globalStep_counts {GP DP OG OD CS : Type} (E : Ext GP DP OG OD)
    (W : ℕ) (N : ℚ) (lf i : ℕ) (st : TrainerState GP DP OG OD CS)
    (data : Batch) (bs1 bs2 : List Batch) :
    (trainBatch E W N lf i st data).1.GlobalStep = st.GlobalStep + 1 ∧
    (validateBatch E W N lf i st data).1.GlobalStep = st.GlobalStep ∧
    (train E W N lf st bs1).1.GlobalStep = st.GlobalStep + bs1.length ∧
    (validate E W N lf st bs1).1.GlobalStep = st.GlobalStep ∧
    (train E W N lf (train E W N lf st bs1).1 bs2).1.GlobalStep =
      st.GlobalStep + bs1.length + bs2.length ∧
    (validate E W N lf (train E W N lf st bs1).1 bs2).1.GlobalStep =
      st.GlobalStep + bs1.length := by
  refine ⟨trainBatch_globalStep_aux E W N lf i st data,
    validateBatch_globalStep_aux E W N lf i st data, ?_, ?_, ?_, ?_⟩
  · exact trainLoop_globalStep_aux E W N lf bs1 0 st
  · exact validateLoop_globalStep_aux E W N lf bs1 0 st
  · rw [train, train, trainLoop_globalStep_aux, trainLoop_globalStep_aux]
  · rw [validate, train, validateLoop_globalStep_aux, trainLoop_globalStep_aux]

/-- The metrics emitted by one validation batch carry the current global
step as their key, and only when the logging gate passes. -/
theorem validateBatch_logSteps_aux {GP DP OG OD CS : Type} (E : Ext GP DP OG OD)
    (W : ℕ) (N : ℚ) (lf i : ℕ) (st : TrainerState GP DP OG OD CS) (data : Batch) :
    (validateBatch E W N lf i st data).2.filterMap logStepOf =
      if i % lf = 0 then [st.GlobalStep] else [] := by
  by_cases h : i % lf = 0 <;> simp [validateBatch, h, logStepOf]

/-- Every metrics emission of a validation loop is keyed by the global
step of the state the loop was entered with. -/
theorem validateLoop_logSteps_aux {GP DP OG OD CS : Type} (E : Ext GP DP OG OD)
    (W : ℕ) (N : ℚ) (lf : ℕ) :
    ∀ (bs : List Batch) (i : ℕ) (st : TrainerState GP DP OG OD CS),
      ((validateLoop E W N lf i st bs).2.filterMap logStepOf).all
        (fun s => s == st.GlobalStep) = true := by
  intro bs
  induction bs with
  | nil => intro i st; rfl
  | cons d rest ih =>
    intro i st
    simp only [validateLoop]
    rw [List.filterMap_append, List.all_append, Bool.and_eq_true]
    refine ⟨?_, ?_⟩
    · rw [validateBatch_logSteps_aux]
      by_cases h : i % lf = 0 <;> simp [h]
    · have hrec := ih (i + 1) (validateBatch E W N lf i st d).1
      rwa [validateBatch_globalStep_aux] at hrec

/-- C10: during a single call to validate every metrics emission uses
the same step key, namely the global step at entry; and a second
validation epoch with no intervening training logs under that same key
again. -/
theorem validate_logStep_constant {GP DP OG OD CS : Type} (E : Ext GP DP OG OD)
    (W : ℕ) (N : ℚ) (lf : ℕ) (st : TrainerState GP DP OG OD CS)
    (bs1 bs2 : List Batch) :
    ((validate E W N lf st bs1).2.filterMap logStepOf).all
      (fun s => s == st.GlobalStep) = true ∧
    ((validate E W N lf (validate E W N lf st bs1).1 bs2).2.filterMap logStepOf).all
      (fun s => s == st.GlobalStep) = true := by
  constructor
  · exact validateLoop_logSteps_aux E W N lf bs1 0 st
  · have hrec := validateLoop_logSteps_aux E W N lf bs2 0 (validate E W N lf st bs1).1
    rwa [show (validate E W N lf st bs1).1.GlobalStep = st.GlobalStep from
      validateLoop_globalStep_aux E W N lf bs1 0 st] at hrec

/-- C1: every training batch performs exactly one discriminator update
followed by one generator update, in this order: clear discriminator
gradients; fill REAL labels and forward the normalised shifted expected
target through the discriminator, backpropagating its loss into the
discriminator; fill FAKE labels, run the generator, forward the detached
generated batch through the discriminator and backpropagate its loss into
the discriminator; apply the discriminator optimiser step; clear
generator gradients; fill REAL labels and re-run the discriminator on the
same generated batch, not detached, backpropagating its loss into the
generator; apply the generator optimiser step; then emit the gated
metrics and increment the step.  In particular the discriminator
optimiser step precedes every generator-phase event, the three label
fills are REAL, FAKE, REAL, the discriminator forward detach flags are
false, true, false, and the last two discriminator forwards receive the
same generated batch. -/
theorem trainBatch_order {GP DP OG OD CS : Type} (E : Ext GP DP OG OD)
    (W : ℕ) (N : ℚ) (lf i : ℕ) (st : TrainerState GP DP OG OD CS) (data : Batch) :
    (trainBatch E W N lf i st data).2.map eventKind =
      ([.kDiscZeroGrad, .kLabelFill, .kDiscForward, .kBackwardIntoDisc,
        .kLabelFill, .kGenForward, .kDiscForward, .kBackwardIntoDisc,
        .kDiscOptimStep, .kGenZeroGrad, .kLabelFill, .kDiscForward,
        .kBackwardIntoGen, .kGenOptimStep] ++
       (if i % lf = 0 then [.kLogScalars] else []) ++ [.kStepIncrement]) ∧
    (trainBatch E W N lf i st data).2.filterMap labelFillValue =
      [REAL_LABEL, FAKE_LABEL, REAL_LABEL] ∧
    (trainBatch E W N lf i st data).2.filterMap discForwardDetached =
      [false, true, false] ∧
    (trainBatch E W N lf i st data).2.filterMap discForwardInput =
      [normaliseNoteT N (shiftTarget W data.2.1 data.2.2).1.2,
       E.genForward st.Generator data.1 (shiftTarget W data.2.1 data.2.2).1.1
         (shiftTarget W data.2.1 data.2.2).2,
       E.genForward st.Generator data.1 (shiftTarget W data.2.1 data.2.2).1.1
         (shiftTarget W data.2.1 data.2.2).2] ∧
    (trainBatch E W N lf i st data).2.filterMap genForwardArgs =
      [(data.1, (shiftTarget W data.2.1 data.2.2).1.1,
        (shiftTarget W data.2.1 data.2.2).2)] := by
  refine ⟨?_, ?_, ?_, ?_, ?_⟩ <;>
    by_cases h : i % lf = 0 <;>
      simp [trainBatch, h, eventKind, labelFillValue, discForwardDetached,
        discForwardInput, genForwardArgs]

/-- C2 amended: a validation batch runs the same forward computations as
the corresponding training batch — the same normalised real input and
generator arguments, and its two discriminator forward inputs are the
first two of training — with no gradient clearing, no backward, no
optimiser step and no step increment, leaving network parameters and
optimiser states unchanged; it emits Loss(D), Loss(G), D(x), D(G(z))
keyed by the entry global step, where Loss(D) is the criterion of the
real score against REAL labels alone (the FAKE term of the training
discriminator loss is absent) and Loss(G) is the criterion of the
generated score against FAKE labels (training uses REAL there); exactly
one generator-discriminator score is computed. -/
theorem validateBatch_refines_trainBatch {GP DP OG OD CS : Type} (E : Ext GP DP OG OD)
    (W : ℕ) (N : ℚ) (lf i : ℕ) (st : TrainerState GP DP OG OD CS) (data : Batch) :
    (validateBatch E W N lf i st data).2.map eventKind =
      ([.kLabelFill, .kDiscForward, .kLabelFill, .kGenForward, .kDiscForward] ++
       (if i % lf = 0 then [.kLogScalars] else [])) ∧
    (validateBatch E W N lf i st data).2.filterMap genForwardArgs =
      (trainBatch E W N lf i st data).2.filterMap genForwardArgs ∧
    (validateBatch E W N lf i st data).2.filterMap discForwardInput =
      ((trainBatch E W N lf i st data).2.filterMap discForwardInput).take 2 ∧
    (validateBatch E W N lf i st data).2.filterMap logValuesOf =
      (if i % lf = 0 then
        [[("Loss(D)",
            E.crit (E.discForward st.Discriminator
                (normaliseNoteT N (shiftTarget W data.2.1 data.2.2).1.2))
              (materialiseLabel (fillLabel st.Label data.1.length REAL_LABEL)
                data.1.length)),
          ("Loss(G)",
            E.crit (E.discForward st.Discriminator
                (E.genForward st.Generator data.1 (shiftTarget W data.2.1 data.2.2).1.1
                  (shiftTarget W data.2.1 data.2.2).2))
              (materialiseLabel
                (fillLabel (fillLabel st.Label data.1.length REAL_LABEL)
                  data.1.length FAKE_LABEL)
                data.1.length)),
          ("D(x)",
            listMean (E.discForward st.Discriminator
              (normaliseNoteT N (shiftTarget W data.2.1 data.2.2).1.2))),
          ("D(G(z))",
            listMean (E.discForward st.Discriminator
              (E.genForward st.Generator data.1 (shiftTarget W data.2.1 data.2.2).1.1
                (shiftTarget W data.2.1 data.2.2).2)))]]
       else []) ∧
    (validateBatch E W N lf i st data).2.filterMap logStepOf =
      (if i % lf = 0 then [st.GlobalStep] else []) ∧
    (validateBatch E W N lf i st data).1.Generator = st.Generator ∧
    (validateBatch E W N lf i st data).1.Discriminator = st.Discriminator ∧
    (validateBatch E W N lf i st data).1.GeneratorOptimiser = st.GeneratorOptimiser ∧
    (validateBatch E W N lf i st data).1.DiscriminatorOptimiser = st.DiscriminatorOptimiser := by
  refine ⟨?_, ?_, ?_, ?_, ?_, rfl, rfl, rfl, rfl⟩ <;>
    by_cases h : i % lf = 0 <;>
      simp [validateBatch, trainBatch, h, eventKind, genForwardArgs,
        discForwardInput, logValuesOf, logStepOf]

/-- C2 counterexample: with a single generated score 1/4 the validation
Loss(G), the BCE criterion of the generated score against FAKE labels,
differs from the training generator loss definition, the criterion
against REAL labels; and with real and generated scores 1/2 the
validation Loss(D), the criterion of the real score alone, differs from
the training discriminator loss definition, the sum of the real and fake
terms.  Hence the validation metrics do not equal the training loss
definitions, refuting the claim at these concrete inputs. -/
theorem validateLoss_ne_trainLoss_counterexample :
    validateLossG [(1:ℝ)/4] 1 ≠ trainLossG [(1:ℝ)/4] 1 ∧
    validateLossD [(1:ℝ)/2] 1 ≠ trainLossD [(1:ℝ)/2] [(1:ℝ)/2] 1 := by
  have h34 : Real.log ((1:ℝ)/4) < Real.log ((3:ℝ)/4) :=
    Real.log_lt_log (by norm_num) (by norm_num)
  have h12 : Real.log ((1:ℝ)/2) < 0 := Real.log_neg (by norm_num) (by norm_num)
  have ev : validateLossG [(1:ℝ)/4] 1 = -Real.log ((3:ℝ)/4) := by
    simp [validateLossG, bceLoss, fakeLabelList]
    norm_num
  have et : trainLossG [(1:ℝ)/4] 1 = -Real.log ((1:ℝ)/4) := by
    simp [trainLossG, bceLoss, realLabelList]
  have evd : validateLossD [(1:ℝ)/2] 1 = -Real.log ((1:ℝ)/2) := by
    simp [validateLossD, bceLoss, realLabelList]
  have etd : trainLossD [(1:ℝ)/2] [(1:ℝ)/2] 1 = -(2 * Real.log ((1:ℝ)/2)) := by
    simp [trainLossD, bceLoss, realLabelList, fakeLabelList]
    norm_num
    rw [one_div, Real.log_inv]
    ring
  constructor
  · rw [ev, et]
    intro hc
    have := neg_injective hc
    linarith
  · rw [evd, etd]
    intro hc
    have := neg_injective hc
    linarith

end MMG
